import Mathlib

/-!
Verification of the password-strength evaluation engine of
`src/password_checker.py` (functions `is_in_hashed_blacklist`,
`is_password_breached`, `calculate_entropy`, `estimate_crack_time`,
`check_password_strength`).

Modelling conventions:
* Python strings are Lean `String`s (a list of unicode code points, which
  matches Python's code-point view of `str`: `len`, indexing, slicing).
* Python character-class tests (`islower`, `isupper`, `isdigit`, `isspace`,
  and the regex classes `[A-Z]`, `[a-z]`, `\d`) are modelled by the
  corresponding ASCII predicates `Char.isLower`, `Char.isUpper`,
  `Char.isDigit`, `Char.isWhitespace`; all inputs of interest are ASCII.
* Python floats are idealised as real numbers; `round` is the
  nearest-integer rounding of `Mathlib` (Python's `round` is
  round-half-to-even; the two agree away from exact half-integer ties, and
  no claim below depends on a tie).
* The network call `requests.get(url)` is modelled by a transport function
  `String → HttpResult` supplied as an argument: `HttpResult.success status
  body` models a completed HTTP response and `HttpResult.netError` models a
  raised `requests` exception.  A raised Python exception is a
  `Except.error` outcome.
-/

/-- Python `needle in haystack` on lists of characters: `True` iff `needle`
occurs contiguously in `haystack` (the empty needle always occurs). -/
def listContainsSub (needle : List Char) : List Char → Bool
  | [] => needle.isEmpty
  | c :: rest => needle.isPrefixOf (c :: rest) || listContainsSub needle rest

/-- Python `sub in s` for strings. -/
def strContains (s sub : String) : Bool :=
  listContainsSub sub.data s.data

/-- Python `str.lower()` (ASCII model). -/
def pyLower (s : String) : String :=
  String.mk (s.data.map Char.toLower)

/-- Python `str.upper()` (ASCII model). -/
def pyUpper (s : String) : String :=
  String.mk (s.data.map Char.toUpper)

/-- Auxiliary for `pySplitSep`: accumulate the current field (reversed). -/
def pySplitSepAux (sep : Char) : List Char → List Char → List String
  | [], acc => [String.mk acc.reverse]
  | c :: rest, acc =>
      if c = sep then String.mk acc.reverse :: pySplitSepAux sep rest []
      else pySplitSepAux sep rest (c :: acc)

/-- Python `s.split(sep)` for a one-character separator: always returns at
least one (possibly empty) field. -/
def pySplitSep (sep : Char) (s : String) : List String :=
  pySplitSepAux sep s.data []

/-- Auxiliary for `pySplitWs`. -/
def pySplitWsAux : List Char → List Char → List String
  | [], [] => []
  | [], acc => [String.mk acc.reverse]
  | c :: rest, acc =>
      if c.isWhitespace then
        (if acc.isEmpty then pySplitWsAux rest []
         else String.mk acc.reverse :: pySplitWsAux rest [])
      else pySplitWsAux rest (c :: acc)

/-- Python `s.split()` (no separator): split on runs of whitespace and drop
empty fields. -/
def pySplitWs (s : String) : List String :=
  pySplitWsAux s.data []

/-- Auxiliary for `pySplitlines`. -/
def pySplitlinesAux : List Char → List Char → List String
  | [], [] => []
  | [], acc => [String.mk acc.reverse]
  | '\r' :: '\n' :: rest, acc => String.mk acc.reverse :: pySplitlinesAux rest []
  | '\n' :: rest, acc => String.mk acc.reverse :: pySplitlinesAux rest []
  | '\r' :: rest, acc => String.mk acc.reverse :: pySplitlinesAux rest []
  | c :: rest, acc => pySplitlinesAux rest (c :: acc)

/-- Python `s.splitlines()`: split on `\n`, `\r` or `\r\n`, with no trailing
empty line for a final line break. -/
def pySplitlines (s : String) : List String :=
  pySplitlinesAux s.data []

/-! ## SHA-1 (`hashlib.sha1(...).hexdigest()`)

A byte is a `Nat < 256`, a word a `Nat < 2^32`; overflow is explicit
`% 4294967296`. -/

/-- Rotate a 32-bit word left by `n` bits. -/
def rotl32 (n x : Nat) : Nat :=
  ((x <<< n) ||| (x >>> (32 - n))) % 4294967296

/-- UTF-8 encoding of one code point (Python `str.encode('utf-8')`). -/
def utf8Bytes (c : Char) : List Nat :=
  let n := c.toNat
  if n < 128 then [n]
  else if n < 2048 then
    [192 ||| (n >>> 6), 128 ||| (n &&& 63)]
  else if n < 65536 then
    [224 ||| (n >>> 12), 128 ||| ((n >>> 6) &&& 63), 128 ||| (n &&& 63)]
  else
    [240 ||| (n >>> 18), 128 ||| ((n >>> 12) &&& 63),
     128 ||| ((n >>> 6) &&& 63), 128 ||| (n &&& 63)]

/-- UTF-8 bytes of a string. -/
def strUtf8 (s : String) : List Nat :=
  s.data.foldr (fun c acc => utf8Bytes c ++ acc) []

/-- Big-endian 8-byte encoding of a (bit-) length. -/
def lenBytes64 (n : Nat) : List Nat :=
  [(n >>> 56) % 256, (n >>> 48) % 256, (n >>> 40) % 256, (n >>> 32) % 256,
   (n >>> 24) % 256, (n >>> 16) % 256, (n >>> 8) % 256, n % 256]

/-- SHA-1 padding: append `0x80`, zero bytes to 56 mod 64, then the 64-bit
big-endian bit length. -/
def sha1Pad (msg : List Nat) : List Nat :=
  msg ++ [128] ++ List.replicate ((119 - (msg.length % 64)) % 64) 0
      ++ lenBytes64 (8 * msg.length)

/-- Group bytes into big-endian 32-bit words. -/
def bytesToWords : List Nat → List Nat
  | b0 :: b1 :: b2 :: b3 :: rest =>
      ((b0 <<< 24) + (b1 <<< 16) + (b2 <<< 8) + b3) :: bytesToWords rest
  | _ => []

/-- Extend the 16 chunk words to 80: `fuel` counts the words still to add;
`rev` holds the words produced so far, newest first. -/
def sha1Extend : Nat → List Nat → List Nat
  | 0, rev => rev
  | fuel + 1, rev =>
      let w := rotl32 1 ((rev.getD 2 0) ^^^ (rev.getD 7 0) ^^^
                         (rev.getD 13 0) ^^^ (rev.getD 15 0))
      sha1Extend fuel (w :: rev)

/-- The round function `f` of SHA-1 for round index `i`. -/
def sha1F (i b c d : Nat) : Nat :=
  if i < 20 then (b &&& c) ||| ((b ^^^ 4294967295) &&& d)
  else if i < 40 then b ^^^ c ^^^ d
  else if i < 60 then (b &&& c) ||| (b &&& d) ||| (c &&& d)
  else b ^^^ c ^^^ d

/-- The round constant `k` of SHA-1 for round index `i`. -/
def sha1K (i : Nat) : Nat :=
  if i < 20 then 1518500249
  else if i < 40 then 1859775393
  else if i < 60 then 2400959708
  else 3395469782

/-- The 80 main rounds: fold the schedule words over the state `(a,b,c,d,e)`. -/
def sha1Rounds : List Nat → Nat → Nat × Nat × Nat × Nat × Nat → Nat × Nat × Nat × Nat × Nat
  | [], _, st => st
  | w :: ws, i, (a, b, c, d, e) =>
      let temp := (rotl32 5 a + sha1F i b c d + e + sha1K i + w) % 4294967296
      sha1Rounds ws (i + 1) (temp, a, rotl32 30 b, c, d)

/-- Process one 64-byte chunk, updating the five hash words. -/
def sha1Chunk (h : Nat × Nat × Nat × Nat × Nat) (chunk : List Nat) :
    Nat × Nat × Nat × Nat × Nat :=
  let ws := (sha1Extend 64 (bytesToWords chunk).reverse).reverse
  let (h0, h1, h2, h3, h4) := h
  let (a, b, c, d, e) := sha1Rounds ws 0 (h0, h1, h2, h3, h4)
  ((h0 + a) % 4294967296, (h1 + b) % 4294967296, (h2 + c) % 4294967296,
   (h3 + d) % 4294967296, (h4 + e) % 4294967296)

/-- Stream the padded bytes, processing each full 64-byte buffer. -/
def sha1Fold (h : Nat × Nat × Nat × Nat × Nat) (buf : List Nat) :
    List Nat → Nat × Nat × Nat × Nat × Nat
  | [] => h
  | byte :: rest =>
      let buf' := buf ++ [byte]
      if buf'.length = 64 then sha1Fold (sha1Chunk h buf') [] rest
      else sha1Fold h buf' rest

/-- Lowercase hex digit for a nibble. -/
def hexDigit (n : Nat) : Char :=
  if n < 10 then Char.ofNat (48 + n) else Char.ofNat (87 + n)

/-- Eight lowercase hex digits of a 32-bit word. -/
def wordHex (w : Nat) : List Char :=
  [hexDigit ((w >>> 28) % 16), hexDigit ((w >>> 24) % 16),
   hexDigit ((w >>> 20) % 16), hexDigit ((w >>> 16) % 16),
   hexDigit ((w >>> 12) % 16), hexDigit ((w >>> 8) % 16),
   hexDigit ((w >>> 4) % 16), hexDigit (w % 16)]

/-- `hashlib.sha1(s.encode('utf-8')).hexdigest()`: lowercase hex digest. -/
def sha1Hexdigest (s : String) : String :=
  let (h0, h1, h2, h3, h4) :=
    sha1Fold (1732584193, 4023233417, 2562383102, 271733878, 3285377520)
      [] (sha1Pad (strUtf8 s))
  String.mk (wordHex h0 ++ wordHex h1 ++ wordHex h2 ++ wordHex h3 ++ wordHex h4)

/-- `hashlib.sha1(password.encode('utf-8')).hexdigest().upper()`. -/
def sha1HexUpper (s : String) : String :=
  pyUpper (sha1Hexdigest s)

/-! ## Blacklist checker (`is_in_hashed_blacklist`) -/

/-- `HASHED_BLACKLIST`: the module-level set of SHA-1 digests of "password"
and "123456" (modelled as a list; membership is the only operation used). -/
def HASHED_BLACKLIST : List String :=
  ["5BAA61E4C9B93F3F0682250B6CF8331B7EE68FD8",
   "7C4A8D09CA3762AF61E59520943DC26494F8941B"]

/-- `is_in_hashed_blacklist(password)`: hash the password with SHA-1,
uppercase hex, and test membership in `HASHED_BLACKLIST`.  Pure and
deterministic: the digest and the set are the only inputs. -/
def is_in_hashed_blacklist (password : String) : Bool :=
  let sha1 := sha1HexUpper password
  HASHED_BLACKLIST.contains sha1

/-! ## Breach checker (`is_password_breached`) -/

/-- Outcome of `requests.get(url)`: either a completed HTTP response with a
status code and body, or a raised network exception. -/
inductive HttpResult where
  | success (status : Nat) (body : String)
  | netError
deriving DecidableEq

/-- A raised Python exception, as observed by a caller:
`requests.exceptions.RequestException` from the network call, or
`ValueError` from unpacking a malformed `suffix:count` line. -/
inductive PyError where
  | requestException
  | valueError
deriving DecidableEq

/-- The loop `for hash_suffix, count in hashes:` over the generator
`(line.split(':') for line in response.text.splitlines())`: lazily split
each line at `:`; a line with other than two fields raises `ValueError`
(`not enough values to unpack`); a first field equal to the local suffix
returns `True`; exhaustion returns `False`. -/
def scanHashLines (suf : String) : List String → Except PyError Bool
  | [] => Except.ok false
  | line :: rest =>
      match pySplitSep ':' line with
      | [hashSuffix, _count] =>
          if hashSuffix = suf then Except.ok true else scanHashLines suf rest
      | _ => Except.error PyError.valueError

/-- `is_password_breached(password)`, with the network call
`requests.get(url)` modelled by `transport`: SHA-1 the password (uppercase
hex), split into 5-char prefix and 35-char suffix, query the range URL by
prefix, treat a non-200 status as not breached, and scan the response lines
for the suffix.  A network exception or a malformed line is a raised
exception (`Except.error`), since the source has no `try`/`except`. -/
def is_password_breached (password : String) (transport : String → HttpResult) :
    Except PyError Bool :=
  let sha1_hash := sha1HexUpper password
  let pre5 := String.mk (sha1_hash.data.take 5)
  let suf := String.mk (sha1_hash.data.drop 5)
  let url := "https://api.pwnedpasswords.com/range/" ++ pre5
  match transport url with
  | HttpResult.netError => Except.error PyError.requestException
  | HttpResult.success status body =>
      if status ≠ 200 then Except.ok false
      else scanHashLines suf (pySplitlines body)

/-! ## Entropy estimator (`calculate_entropy`) -/

/-- The fixed special-character set of the source,
`"!@#$%^&*(),.?\":{}|<>"` (the code's comment says 21 characters; the
literal has 20). -/
def specialChars : String := "!@#$%^&*(),.?\":\x7b\x7d|<>"

/-- The `possible_characters` accumulation of `calculate_entropy`: each
character class present contributes its full size once (lowercase 26,
uppercase 26, digits 10, the special set its length, whitespace 1). -/
def possible_characters (password : String) : Nat :=
  let n : Nat := 0
  let n := if password.data.any Char.isLower then n + 26 else n
  let n := if password.data.any Char.isUpper then n + 26 else n
  let n := if password.data.any Char.isDigit then n + 10 else n
  let n := if password.data.any (fun c => specialChars.data.contains c) then
      n + specialChars.length else n
  let n := if password.data.any Char.isWhitespace then n + 1 else n
  n

/-- Python `round(x, 2)` idealised over the reals: nearest multiple of
`1/100` (Python breaks exact ties to even; no tie occurs in this
development). -/
noncomputable def pyRound2 (x : ℝ) : ℝ :=
  (round (100 * x) : ℤ) / 100

/-- `calculate_entropy(password)`: `0` when no recognised class is present,
else `log2(possible_characters) * len(password)` rounded to 2 decimals. -/
noncomputable def calculate_entropy (password : String) : ℝ :=
  if possible_characters password = 0 then 0
  else pyRound2 (Real.logb 2 (possible_characters password) * password.length)

/-! ## Crack-time estimator (`estimate_crack_time`) -/

open Classical in
/-- `estimate_crack_time(entropy)` at the default rate of `10^10` guesses
per second: `seconds = 2 ** entropy / 1e10`, mapped through the ordered
threshold buckets, rounding to the nearest integer in each bucket. -/
noncomputable def estimate_crack_time (entropy : ℝ) : String :=
  let seconds := (2 : ℝ) ^ entropy / 10000000000
  if seconds < 1 then "less than 1 second"
  else if seconds < 60 then toString (round seconds) ++ " seconds"
  else if seconds < 3600 then toString (round (seconds / 60)) ++ " minutes"
  else if seconds < 86400 then toString (round (seconds / 3600)) ++ " hours"
  else if seconds < 31536000 then toString (round (seconds / 86400)) ++ " days"
  else if seconds < 31536000 * 100 then
    toString (round (seconds / 31536000)) ++ " years"
  else "centuries or more"

/-! ## Strength evaluator (`check_password_strength`) -/

/-- Rule 1: `len(password) >= 12`. -/
def rule1 (password : String) : Bool := password.length ≥ 12

/-- Rule 2: `re.search(r"[A-Z]", password)`. -/
def rule2 (password : String) : Bool :=
  password.data.any (fun c => 'A' ≤ c && c ≤ 'Z')

/-- Rule 3: `re.search(r"[a-z]", password)`. -/
def rule3 (password : String) : Bool :=
  password.data.any (fun c => 'a' ≤ c && c ≤ 'z')

/-- Rule 4: `re.search(r"\d", password)` (ASCII model). -/
def rule4 (password : String) : Bool :=
  password.data.any Char.isDigit

/-- Rule 5: `re.search(r"[!@#$%^&*(),.?\":{}|<>]", password)`. -/
def rule5 (password : String) : Bool :=
  password.data.any (fun c => specialChars.data.contains c)

/-- Python `email.lower().split('@')[0]`: the text before the first `@`. -/
def emailLocalPart (e : String) : String :=
  (pySplitSep '@' (pyLower e)).headD ""

/-- The rule-6 condition
`username.lower() in password.lower() or (email and email.lower().split('@')[0] in password.lower())`:
`true` means the rule FAILS (no point, feedback appended).  An absent email
(`none`) and an empty email string are both falsy in Python, so the email
sub-check only runs for a non-empty provided email. -/
def rule6Violated (username password : String) (email : Option String) : Bool :=
  strContains (pyLower password) (pyLower username) ||
  (match email with
   | none => false
   | some e => (e != "") && strContains (pyLower password) (emailLocalPart e))

/-- Rule 8: `len(password.split()) >= 4 and all(len(word) > 3 for word in password.split())`. -/
def rule8 (password : String) : Bool :=
  (pySplitWs password).length ≥ 4 &&
    (pySplitWs password).all (fun w => w.length > 3)

/-- The `(score, feedback)` state right after rule 8, accumulated
sequentially exactly as in the source (score starts at 0, feedback at []). -/
def rulesThrough8 (username password : String) (email : Option String) :
    Nat × List String :=
  let st : Nat × List String := (0, [])
  let st := if rule1 password then (st.1 + 1, st.2)
    else (st.1, st.2 ++ ["Password must be at least 12 characters long."])
  let st := if rule2 password then (st.1 + 1, st.2)
    else (st.1, st.2 ++ ["Add at least one uppercase letter."])
  let st := if rule3 password then (st.1 + 1, st.2)
    else (st.1, st.2 ++ ["Add at least one lowercase letter."])
  let st := if rule4 password then (st.1 + 1, st.2)
    else (st.1, st.2 ++ ["Include at least one number."])
  let st := if rule5 password then (st.1 + 1, st.2)
    else (st.1, st.2 ++ ["Include at least one special character."])
  let st := if rule6Violated username password email then
      (st.1, st.2 ++ ["Don't use your username or email in the password."])
    else (st.1 + 1, st.2)
  let st := if is_in_hashed_blacklist password then
      (st.1, st.2 ++ ["This password is blacklisted (too common)."])
    else (st.1 + 1, st.2)
  let st := if rule8 password then
      (st.1 + 1, st.2 ++ ["👍 Good! You're using a passphrase."])
    else st
  st

/-- Rule 9's update of `(score, feedback)` given the breach-check result. -/
def rule9Step (st : Nat × List String) (breached : Bool) : Nat × List String :=
  if breached then
    (st.1, st.2 ++ ["⚠️ This password has appeared in a known data breach."])
  else (st.1 + 1, st.2)

/-- The final score of `check_password_strength` when the breach check
returns `breached`. -/
def scoreOf (username password : String) (email : Option String)
    (breached : Bool) : Nat :=
  (rule9Step (rulesThrough8 username password email) breached).1

/-- The rule feedback (rules 1–9, before the two informational lines) of
`check_password_strength` when the breach check returns `breached`. -/
def feedbackOf (username password : String) (email : Option String)
    (breached : Bool) : List String :=
  (rule9Step (rulesThrough8 username password email) breached).2

open Classical in
/-- `check_password_strength(username, password, email)`.  The network call
is modelled by `transport`; an exception raised by rule 9 propagates
(`Except.error`).  Python's formatting of the float `entropy` inside
`f"🔐 Entropy: {entropy} bits"` is modelled by the rendering function
`fmtFloat`. -/
noncomputable def check_password_strength (username password : String)
    (email : Option String) (transport : String → HttpResult)
    (fmtFloat : ℝ → String) : Except PyError String :=
  let st := rulesThrough8 username password email
  match is_password_breached password transport with
  | Except.error e => Except.error e
  | Except.ok breached =>
      let st := rule9Step st breached
      let entropy := calculate_entropy password
      let crack_time := estimate_crack_time entropy
      let feedback := st.2 ++
        ["🔐 Entropy: " ++ fmtFloat entropy ++ " bits",
         "⏱️ Estimated crack time: " ++ crack_time]
      if st.1 ≥ 6 then
        Except.ok ("✅ Strong password!\n" ++ String.intercalate "\n" feedback)
      else if st.1 ≥ 4 then
        Except.ok ("⚠️ Moderate password.\n Consider improving:\n" ++
          String.intercalate "\n" feedback)
      else
        Except.ok ("❌ Weak password:\n" ++ String.intercalate "\n" feedback)

/-- The classification header as a function of the final score alone
(thresholds of the source's final `if`/`elif`/`else`). -/
def classify (score : Nat) : String :=
  if score ≥ 6 then "✅ Strong password!\n"
  else if score ≥ 4 then "⚠️ Moderate password.\n Consider improving:\n"
  else "❌ Weak password:\n"

/-- The informational entropy line `f"🔐 Entropy: {entropy} bits"`. -/
noncomputable def entropyLine (fmtFloat : ℝ → String) (password : String) : String :=
  "🔐 Entropy: " ++ fmtFloat (calculate_entropy password) ++ " bits"

/-- The informational crack-time line
`f"⏱️ Estimated crack time: {crack_time}"`. -/
noncomputable def crackTimeLine (password : String) : String :=
  "⏱️ Estimated crack time: " ++ estimate_crack_time (calculate_entropy password)

/-- The score as a sum of nine independent per-rule indicators (the
specification's reading: each rule contributes exactly one point on
success, independently of the others). -/
def scoreSum (username password : String) (email : Option String)
    (breached : Bool) : Nat :=
  (if rule1 password then 1 else 0) + (if rule2 password then 1 else 0) +
  (if rule3 password then 1 else 0) + (if rule4 password then 1 else 0) +
  (if rule5 password then 1 else 0) +
  (if rule6Violated username password email then 0 else 1) +
  (if is_in_hashed_blacklist password then 0 else 1) +
  (if rule8 password then 1 else 0) + (if breached then 0 else 1)

/-- The feedback as a concatenation, in rule order, of nine independent
per-rule contributions: rules 1–7 and 9 contribute their message exactly
when they fail, rule 8 contributes its positive message exactly when it
succeeds. -/
def ruleMessages (username password : String) (email : Option String)
    (breached : Bool) : List String :=
  (if rule1 password then [] else ["Password must be at least 12 characters long."]) ++
  (if rule2 password then [] else ["Add at least one uppercase letter."]) ++
  (if rule3 password then [] else ["Add at least one lowercase letter."]) ++
  (if rule4 password then [] else ["Include at least one number."]) ++
  (if rule5 password then [] else ["Include at least one special character."]) ++
  (if rule6Violated username password email then
    ["Don't use your username or email in the password."] else []) ++
  (if is_in_hashed_blacklist password then
    ["This password is blacklisted (too common)."] else []) ++
  (if rule8 password then ["👍 Good! You're using a passphrase."] else []) ++
  (if breached then
    ["⚠️ This password has appeared in a known data breach."] else [])

/-! ## Spec-side definitions (from the specification's words, for
refinement claims) -/

/-- Modelled from the spec: the alphabet size as the specification words it
for claim C3 — "lowercase contributes 26, uppercase 26, digit 10, the fixed
specified symbol set **21**, whitespace 1", each class counted once when
present. -/
def specAlphabetSize21 (password : String) : Nat :=
  (if password.data.any Char.isLower then 26 else 0) +
  (if password.data.any Char.isUpper then 26 else 0) +
  (if password.data.any Char.isDigit then 10 else 0) +
  (if password.data.any (fun c => specialChars.data.contains c) then 21 else 0) +
  (if password.data.any Char.isWhitespace then 1 else 0)

/-- Modelled from the spec: entropy as claim C3 words it,
`log2(alphabetSize) * length` rounded to 2 decimals, with the 21-character
symbol-class size, and `0` for alphabet size `0`. -/
noncomputable def specEntropy21 (password : String) : ℝ :=
  if specAlphabetSize21 password = 0 then 0
  else pyRound2 (Real.logb 2 (specAlphabetSize21 password) * password.length)

/-- The alphabet size as a sum of independent class contributions with the
symbol class contributing its actual size, 20. -/
def specAlphabetSize20 (password : String) : Nat :=
  (if password.data.any Char.isLower then 26 else 0) +
  (if password.data.any Char.isUpper then 26 else 0) +
  (if password.data.any Char.isDigit then 10 else 0) +
  (if password.data.any (fun c => specialChars.data.contains c) then 20 else 0) +
  (if password.data.any Char.isWhitespace then 1 else 0)

/-- Entropy via `specAlphabetSize20` (the amended form of claim C3). -/
noncomputable def specEntropy20 (password : String) : ℝ :=
  if specAlphabetSize20 password = 0 then 0
  else pyRound2 (Real.logb 2 (specAlphabetSize20 password) * password.length)

/-- A character of one of the five recognized classes (claim C4's wording). -/
def inRecognizedClass (c : Char) : Bool :=
  c.isLower || c.isUpper || c.isDigit || specialChars.data.contains c ||
    c.isWhitespace

/-- A character of one of the four non-whitespace classes. -/
def inMainClass (c : Char) : Bool :=
  c.isLower || c.isUpper || c.isDigit || specialChars.data.contains c

/-- `seconds` as computed by `estimate_crack_time`: `2 ** entropy / 1e10`. -/
noncomputable def crackSeconds (entropy : ℝ) : ℝ :=
  (2 : ℝ) ^ entropy / 10000000000

set_option maxRecDepth 100000

/-- Generic shape of the sequential score/feedback accumulation, over
arbitrary outcomes of the nine rule conditions. -/
lemma accumChain (a b c d e f g h i : Bool) :
    (let st : Nat × List String := (0, []);
     let st := if a then (st.1 + 1, st.2)
       else (st.1, st.2 ++ ["Password must be at least 12 characters long."]);
     let st := if b then (st.1 + 1, st.2)
       else (st.1, st.2 ++ ["Add at least one uppercase letter."]);
     let st := if c then (st.1 + 1, st.2)
       else (st.1, st.2 ++ ["Add at least one lowercase letter."]);
     let st := if d then (st.1 + 1, st.2)
       else (st.1, st.2 ++ ["Include at least one number."]);
     let st := if e then (st.1 + 1, st.2)
       else (st.1, st.2 ++ ["Include at least one special character."]);
     let st := if f then
         (st.1, st.2 ++ ["Don't use your username or email in the password."])
       else (st.1 + 1, st.2);
     let st := if g then
         (st.1, st.2 ++ ["This password is blacklisted (too common)."])
       else (st.1 + 1, st.2);
     let st := if h then
         (st.1 + 1, st.2 ++ ["👍 Good! You're using a passphrase."])
       else st;
     if i then
       (st.1, st.2 ++ ["⚠️ This password has appeared in a known data breach."])
     else (st.1 + 1, st.2)) =
    ((if a then 1 else 0) + (if b then 1 else 0) + (if c then 1 else 0) +
       (if d then 1 else 0) + (if e then 1 else 0) + (if f then 0 else 1) +
       (if g then 0 else 1) + (if h then 1 else 0) + (if i then 0 else 1),
     (if a then [] else ["Password must be at least 12 characters long."]) ++
     (if b then [] else ["Add at least one uppercase letter."]) ++
     (if c then [] else ["Add at least one lowercase letter."]) ++
     (if d then [] else ["Include at least one number."]) ++
     (if e then [] else ["Include at least one special character."]) ++
     (if f then ["Don't use your username or email in the password."] else []) ++
     (if g then ["This password is blacklisted (too common)."] else []) ++
     (if h then ["👍 Good! You're using a passphrase."] else []) ++
     (if i then ["⚠️ This password has appeared in a known data breach."] else [])) := by
  cases a <;> cases b <;> cases c <;> cases d <;> cases e <;> cases f <;>
    cases g <;> cases h <;> cases i <;> rfl

/-- The sequential accumulation of the source equals the independent
per-rule decomposition. -/
lemma rulesResult_eq (username password : String) (email : Option String)
    (breached : Bool) :
    rule9Step (rulesThrough8 username password email) breached =
      (scoreSum username password email breached,
       ruleMessages username password email breached) :=
  accumChain (rule1 password) (rule2 password) (rule3 password)
    (rule4 password) (rule5 password) (rule6Violated username password email)
    (is_in_hashed_blacklist password) (rule8 password) breached

lemma scoreOf_eq (username password : String) (email : Option String)
    (breached : Bool) :
    scoreOf username password email breached =
      scoreSum username password email breached :=
  congrArg Prod.fst (rulesResult_eq username password email breached)

lemma feedbackOf_eq (username password : String) (email : Option String)
    (breached : Bool) :
    feedbackOf username password email breached =
      ruleMessages username password email breached :=
  congrArg Prod.snd (rulesResult_eq username password email breached)

/-- When the breach lookup completes with result `b`, the report is the
classification header of the score followed by the joined feedback and the
two informational lines. -/
lemma check_eq (u p : String) (email : Option String)
    (transport : String → HttpResult) (fmt : ℝ → String) (b : Bool)
    (h : is_password_breached p transport = Except.ok b) :
    check_password_strength u p email transport fmt =
      Except.ok (classify (scoreOf u p email b) ++
        String.intercalate "\n" (feedbackOf u p email b ++
          [entropyLine fmt p, crackTimeLine p])) := by
  simp only [check_password_strength, h]
  simp only [classify, scoreOf, feedbackOf, entropyLine, crackTimeLine]
  split_ifs <;> rfl

/-- The empty string is a substring of every string (Python semantics). -/
lemma strContains_empty (s : String) : strContains s "" = true := by
  unfold strContains
  cases s.data <;> simp [listContainsSub, List.isPrefixOf]

/-- C10: for every password, when the username is the empty string, rule 6
always fails: no point is awarded (the rule-6 condition holds) and the
"Don't use your username or email" message is in the feedback, because the
empty string is a substring of every password. -/
theorem empty_username_rule6_fails :
    ∀ (p : String) (email : Option String) (b : Bool),
      rule6Violated "" p email = true ∧
      "Don't use your username or email in the password." ∈
        feedbackOf "" p email b := by
  intro p email b
  have h6 : rule6Violated "" p email = true := by
    unfold rule6Violated
    rw [show pyLower "" = "" from rfl, strContains_empty]
    simp
  refine ⟨h6, ?_⟩
  rw [feedbackOf_eq]
  simp [ruleMessages, h6]

/-- C9: the blacklist check is a deterministic, I/O-free function of the
password (it is a plain function in this model): it computes the SHA-1
digest as uppercase hex and tests membership in the fixed hardcoded digest
set; in particular `is_in_hashed_blacklist "password" = true`. -/
theorem blacklist_deterministic_digest :
    (∀ p : String,
      is_in_hashed_blacklist p = HASHED_BLACKLIST.contains (sha1HexUpper p)) ∧
    is_in_hashed_blacklist "password" = true :=
  ⟨fun _ => rfl, by decide⟩

/-- C1, counterexample: the breach check is NOT fail-open for a network
error (it raises a `requests` exception) nor for a malformed response line
(it raises `ValueError`); neither lookup failure returns `false`. -/
theorem breach_check_not_fail_open_cx :
    is_password_breached "password" (fun _ => HttpResult.netError) =
      Except.error PyError.requestException ∧
    is_password_breached "password"
        (fun _ => HttpResult.success 200 "malformed-line-without-colon") =
      Except.error PyError.valueError := by
  constructor
  · rfl
  · rfl

/-- C1, amended: only a non-success response status is treated as "not
breached" (fail-open); a network error raises an exception, and that
exception propagates out of `check_password_strength`, so rule 9 does not
pass silently in that case. -/
theorem breach_check_failure_policy :
    (∀ (p body : String) (status : Nat), status ≠ 200 →
      is_password_breached p (fun _ => HttpResult.success status body) =
        Except.ok false) ∧
    (∀ p : String,
      is_password_breached p (fun _ => HttpResult.netError) =
        Except.error PyError.requestException) ∧
    (∀ (u p : String) (email : Option String) (fmt : ℝ → String),
      check_password_strength u p email (fun _ => HttpResult.netError) fmt =
        Except.error PyError.requestException) := by
  refine ⟨?_, ?_, ?_⟩
  · intro p body status h
    simp only [is_password_breached]
    rw [if_pos h]
  · intro p
    rfl
  · intro u p email fmt
    simp only [check_password_strength]
    rfl

/-- Witness for `breach_check_failure_policy` at status 404. -/
theorem breach_check_failure_policy_witness :
    (404 : Nat) ≠ 200 ∧
    is_password_breached "password" (fun _ => HttpResult.success 404 "") =
      Except.ok false :=
  ⟨by decide, breach_check_failure_policy.1 "password" "" 404 (by decide)⟩

/-- C2: for every username, password and optional email (and either breach
outcome), the accumulated score is at most 9 (it is a `Nat`, hence at least
0); the returned report is the classification of that score alone; and the
classification thresholds are total on scores: `6 ≤ s` → Strong,
`4 ≤ s < 6` → Moderate, `s < 4` → Weak. -/
theorem score_bounds_and_classification :
    ∀ (u p : String) (email : Option String) (b : Bool),
      scoreOf u p email b ≤ 9 ∧
      (∀ (transport : String → HttpResult) (fmt : ℝ → String),
        is_password_breached p transport = Except.ok b →
        check_password_strength u p email transport fmt =
          Except.ok (classify (scoreOf u p email b) ++
            String.intercalate "\n" (feedbackOf u p email b ++
              [entropyLine fmt p, crackTimeLine p]))) ∧
      (∀ s : Nat,
        (6 ≤ s → classify s = "✅ Strong password!\n") ∧
        (4 ≤ s → s < 6 →
          classify s = "⚠️ Moderate password.\n Consider improving:\n") ∧
        (s < 4 → classify s = "❌ Weak password:\n")) := by
  intro u p email b
  refine ⟨?_, fun transport fmt h => check_eq u p email transport fmt b h, ?_⟩
  · rw [scoreOf_eq]
    have key : ∀ a b c d e f g h i : Bool,
        ((if a then 1 else 0) + (if b then 1 else 0) + (if c then 1 else 0) +
         (if d then 1 else 0) + (if e then 1 else 0) + (if f then 0 else 1) +
         (if g then 0 else 1) + (if h then 1 else 0) +
         (if i then 0 else 1) : Nat) ≤ 9 := by decide
    exact key (rule1 p) (rule2 p) (rule3 p) (rule4 p) (rule5 p)
      (rule6Violated u p email) (is_in_hashed_blacklist p) (rule8 p) b
  · intro s
    refine ⟨fun h6 => ?_, fun h4 h6 => ?_, fun h4 => ?_⟩
    · unfold classify; rw [if_pos h6]
    · unfold classify; rw [if_neg (by omega), if_pos h4]
    · unfold classify; rw [if_neg (by omega), if_neg (by omega)]

/-- Witness for `score_bounds_and_classification` at concrete inputs. -/
theorem score_bounds_and_classification_witness :
    scoreOf "u" "pw" none false ≤ 9 ∧
    check_password_strength "u" "pw" none
        (fun _ => HttpResult.success 500 "") (fun _ => "") =
      Except.ok (classify (scoreOf "u" "pw" none false) ++
        String.intercalate "\n" (feedbackOf "u" "pw" none false ++
          [entropyLine (fun _ => "") "pw", crackTimeLine "pw"])) ∧
    classify 6 = "✅ Strong password!\n" ∧
    classify 4 = "⚠️ Moderate password.\n Consider improving:\n" ∧
    classify 3 = "❌ Weak password:\n" :=
  have H := score_bounds_and_classification "u" "pw" none false
  ⟨H.1, H.2.1 (fun _ => HttpResult.success 500 "") (fun _ => "") rfl,
    (H.2.2 6).1 (by decide), (H.2.2 4).2.1 (by decide) (by decide),
    (H.2.2 3).2.2 (by decide)⟩

/-- C7: with a completed breach check, all nine rules apply independently
(the final score and feedback equal the concatenation of nine per-rule
contributions in rule order: one point on success and one message on
failure for each rule, rule 8 instead one point and one positive message on
success), and the report is the leading classification marker, the
per-rule feedback in rule order, then the entropy line and the crack-time
line last — the two informational lines being present regardless of score. -/
theorem report_structure :
    ∀ (u p : String) (email : Option String) (transport : String → HttpResult)
      (fmt : ℝ → String) (b : Bool),
      is_password_breached p transport = Except.ok b →
      check_password_strength u p email transport fmt =
        Except.ok (classify (scoreSum u p email b) ++
          String.intercalate "\n" (ruleMessages u p email b ++
            [entropyLine fmt p, crackTimeLine p])) ∧
      scoreOf u p email b = scoreSum u p email b ∧
      feedbackOf u p email b = ruleMessages u p email b := by
  intro u p email transport fmt b h
  refine ⟨?_, scoreOf_eq u p email b, feedbackOf_eq u p email b⟩
  rw [check_eq u p email transport fmt b h, scoreOf_eq, feedbackOf_eq]

/-- Witness for `report_structure` at concrete inputs. -/
theorem report_structure_witness :
    is_password_breached "pw" (fun _ => HttpResult.success 500 "") =
      Except.ok false ∧
    check_password_strength "u" "pw" none
        (fun _ => HttpResult.success 500 "") (fun _ => "") =
      Except.ok (classify (scoreSum "u" "pw" none false) ++
        String.intercalate "\n" (ruleMessages "u" "pw" none false ++
          [entropyLine (fun _ => "") "pw", crackTimeLine "pw"])) :=
  ⟨rfl, (report_structure "u" "pw" none (fun _ => HttpResult.success 500 "")
    (fun _ => "") false rfl).1⟩

/-- C6, counterexample: at username "zz", password "abc", provided email
`""`, the claim's characterisation fails: the empty local part of the email
IS (case-insensitively) contained in the password, yet rule 6 awards its
point, because Python's truthiness test `email and ...` silently skips the
email sub-check for an empty email string. -/
theorem rule6_email_subcheck_cx :
    ¬ (rule6Violated "zz" "abc" (some "") = false ↔
        (strContains (pyLower "abc") (pyLower "zz") = false ∧
         strContains (pyLower "abc") (emailLocalPart "") = false)) := by
  decide

/-- C6, amended: for a NON-EMPTY provided email, rule 6 awards its point
exactly when the password (case-insensitively) contains neither the
username nor the local part of the email; when the email is absent — or is
the empty string, which Python's truthiness treats as absent — only the
username sub-check applies.  In particular
`evaluate("alice", "alice123XYZ!", email="alice@x.com")` fails rule 6 and
receives its feedback message. -/
theorem rule6_characterization :
    (∀ (u p e : String), e ≠ "" →
      (rule6Violated u p (some e) = false ↔
        (strContains (pyLower p) (pyLower u) = false ∧
         strContains (pyLower p) (emailLocalPart e) = false))) ∧
    (∀ (u p : String),
      rule6Violated u p none = false ↔
        strContains (pyLower p) (pyLower u) = false) ∧
    (∀ (u p : String),
      rule6Violated u p (some "") = false ↔
        strContains (pyLower p) (pyLower u) = false) ∧
    (rule6Violated "alice" "alice123XYZ!" (some "alice@x.com") = true ∧
     ∀ b : Bool,
       "Don't use your username or email in the password." ∈
         feedbackOf "alice" "alice123XYZ!" (some "alice@x.com") b) := by
  refine ⟨?_, ?_, ?_, by decide, ?_⟩
  · intro u p e he
    have hne : (e != "") = true := by simpa using he
    simp [rule6Violated, hne]
  · intro u p
    simp [rule6Violated]
  · intro u p
    simp [rule6Violated]
  · intro b
    rw [feedbackOf_eq]
    have h6 : rule6Violated "alice" "alice123XYZ!" (some "alice@x.com") = true := by
      decide
    simp [ruleMessages, h6]

/-- Witness for `rule6_characterization` at a non-empty email. -/
theorem rule6_characterization_witness :
    ("x.y" : String) ≠ "" ∧
    (rule6Violated "bob" "P@ssword99" (some "x.y") = false ↔
      (strContains (pyLower "P@ssword99") (pyLower "bob") = false ∧
       strContains (pyLower "P@ssword99") (emailLocalPart "x.y") = false)) :=
  ⟨by decide, rule6_characterization.1 "bob" "P@ssword99" "x.y" (by decide)⟩

/-- C8: for every username and optional email, evaluating the empty
password yields entropy 0, fails the length rule and every character-class
rule (rules 2–5), and — whenever the breach lookup completes, with either
outcome — returns a Weak-classified report (an `Except.ok`, hence no
exception). -/
theorem empty_password_eval :
    ∀ (u : String) (email : Option String) (b : Bool)
      (transport : String → HttpResult) (fmt : ℝ → String),
      calculate_entropy "" = 0 ∧
      rule1 "" = false ∧ rule2 "" = false ∧ rule3 "" = false ∧
      rule4 "" = false ∧ rule5 "" = false ∧
      (is_password_breached "" transport = Except.ok b →
        ∃ rest : String,
          check_password_strength u "" email transport fmt =
            Except.ok ("❌ Weak password:\n" ++ rest)) := by
  intro u email b transport fmt
  have hent : calculate_entropy "" = 0 := by
    unfold calculate_entropy
    rw [show possible_characters "" = 0 from rfl]
    simp
  have hs : scoreOf u "" email b < 4 := by
    rw [scoreOf_eq]
    unfold scoreSum
    rw [show rule1 "" = false from rfl, show rule2 "" = false from rfl,
      show rule3 "" = false from rfl, show rule4 "" = false from rfl,
      show rule5 "" = false from rfl, show rule8 "" = false from rfl,
      show is_in_hashed_blacklist "" = false from by decide]
    cases rule6Violated u "" email <;> cases b <;> simp
  refine ⟨hent, rfl, rfl, rfl, rfl, rfl, fun h => ?_⟩
  refine ⟨String.intercalate "\n" (feedbackOf u "" email b ++
    [entropyLine fmt "", crackTimeLine ""]), ?_⟩
  rw [check_eq u "" email transport fmt b h]
  have hc : classify (scoreOf u "" email b) = "❌ Weak password:\n" := by
    unfold classify
    rw [if_neg (by omega), if_neg (by omega)]
  rw [hc]

/-- Witness for `empty_password_eval` with a completed (non-200) lookup. -/
theorem empty_password_eval_witness :
    is_password_breached "" (fun _ => HttpResult.success 500 "") =
      Except.ok false ∧
    ∃ rest : String,
      check_password_strength "u" "" none (fun _ => HttpResult.success 500 "")
          (fun _ => "") = Except.ok ("❌ Weak password:\n" ++ rest) :=
  ⟨rfl, (empty_password_eval "u" none false (fun _ => HttpResult.success 500 "")
      (fun _ => "")).2.2.2.2.2.2 rfl⟩

/-- C5: `estimate_crack_time` computes `seconds = 2^entropy / 10^10` and
maps it through the ordered thresholds — `<1` → "less than 1 second",
`<60` → whole seconds, `<3600` → whole minutes, `<86400` → whole hours,
`<31536000` → whole days, `<100×31536000` → whole years, else
"centuries or more" — rounding to the nearest integer per bucket; in
particular `estimate_crack_time 0 = "less than 1 second"`. -/
theorem crack_time_buckets :
    (∀ e : ℝ,
      (crackSeconds e < 1 → estimate_crack_time e = "less than 1 second") ∧
      (1 ≤ crackSeconds e → crackSeconds e < 60 →
        estimate_crack_time e =
          toString (round (crackSeconds e)) ++ " seconds") ∧
      (60 ≤ crackSeconds e → crackSeconds e < 3600 →
        estimate_crack_time e =
          toString (round (crackSeconds e / 60)) ++ " minutes") ∧
      (3600 ≤ crackSeconds e → crackSeconds e < 86400 →
        estimate_crack_time e =
          toString (round (crackSeconds e / 3600)) ++ " hours") ∧
      (86400 ≤ crackSeconds e → crackSeconds e < 31536000 →
        estimate_crack_time e =
          toString (round (crackSeconds e / 86400)) ++ " days") ∧
      (31536000 ≤ crackSeconds e → crackSeconds e < 31536000 * 100 →
        estimate_crack_time e =
          toString (round (crackSeconds e / 31536000)) ++ " years") ∧
      (31536000 * 100 ≤ crackSeconds e →
        estimate_crack_time e = "centuries or more")) ∧
    estimate_crack_time 0 = "less than 1 second" := by
  constructor
  · intro e
    have hsec : crackSeconds e = (2 : ℝ) ^ e / 10000000000 := rfl
    refine ⟨fun h1 => ?_, fun h1 h2 => ?_, fun h1 h2 => ?_, fun h1 h2 => ?_,
      fun h1 h2 => ?_, fun h1 h2 => ?_, fun h1 => ?_⟩ <;>
      simp only [estimate_crack_time, ← hsec]
    · rw [if_pos h1]
    · rw [if_neg (not_lt.2 h1), if_pos h2]
    · rw [if_neg (not_lt.2 (by linarith)), if_neg (not_lt.2 h1), if_pos h2]
    · rw [if_neg (not_lt.2 (by linarith)), if_neg (not_lt.2 (by linarith)),
        if_neg (not_lt.2 h1), if_pos h2]
    · rw [if_neg (not_lt.2 (by linarith)), if_neg (not_lt.2 (by linarith)),
        if_neg (not_lt.2 (by linarith)), if_neg (not_lt.2 h1), if_pos h2]
    · rw [if_neg (not_lt.2 (by linarith)), if_neg (not_lt.2 (by linarith)),
        if_neg (not_lt.2 (by linarith)), if_neg (not_lt.2 (by linarith)),
        if_neg (not_lt.2 h1), if_pos h2]
    · rw [if_neg (not_lt.2 (by linarith)), if_neg (not_lt.2 (by linarith)),
        if_neg (not_lt.2 (by linarith)), if_neg (not_lt.2 (by linarith)),
        if_neg (not_lt.2 (by linarith)), if_neg (not_lt.2 (by linarith))]
  · simp only [estimate_crack_time]
    rw [if_pos (by norm_num [Real.rpow_zero])]

/-- Witness for `crack_time_buckets` at entropy 0. -/
theorem crack_time_buckets_witness :
    crackSeconds 0 < 1 ∧ estimate_crack_time 0 = "less than 1 second" := by
  have h : crackSeconds 0 < 1 := by
    unfold crackSeconds
    norm_num [Real.rpow_zero]
  exact ⟨h, (crack_time_buckets.1 0).1 h⟩

/-- The special-character set literal has 20 characters. -/
lemma specialChars_length : specialChars.length = 20 := by decide

/-- The sequential class-size accumulation over generic presence flags. -/
lemma possChain (a b c d e : Bool) :
    (let n : Nat := 0;
     let n := if a then n + 26 else n;
     let n := if b then n + 26 else n;
     let n := if c then n + 10 else n;
     let n := if d then n + specialChars.length else n;
     if e then n + 1 else n) =
    (if a then 26 else 0) + (if b then 26 else 0) + (if c then 10 else 0) +
      (if d then 20 else 0) + (if e then 1 else 0) := by
  cases a <;> cases b <;> cases c <;> cases d <;> cases e <;> rfl

/-- `possible_characters` equals the independent class-contribution sum
(with the symbol class contributing its actual size, 20). -/
lemma possible_characters_eq (p : String) :
    possible_characters p = specAlphabetSize20 p :=
  possChain (p.data.any Char.isLower) (p.data.any Char.isUpper)
    (p.data.any Char.isDigit)
    (p.data.any (fun c => specialChars.data.contains c))
    (p.data.any Char.isWhitespace)

/-- `List.any` distributes over a pointwise disjunction. -/
lemma any_or_distrib (l : List Char) (f g : Char → Bool) :
    l.any (fun c => f c || g c) = (l.any f || l.any g) := by
  induction l with
  | nil => rfl
  | cons c cs ih =>
      simp only [List.any_cons, ih]
      cases f c <;> cases g c <;> simp

/-- Presence of a main-class character distributes over the four classes. -/
lemma any_mainClass_eq (p : String) :
    p.data.any inMainClass =
      (p.data.any Char.isLower || p.data.any Char.isUpper ||
        p.data.any Char.isDigit ||
        p.data.any (fun c => specialChars.data.contains c)) := by
  have h1 := any_or_distrib p.data
    (fun c => c.isLower || c.isUpper || c.isDigit)
    (fun c => specialChars.data.contains c)
  have h2 := any_or_distrib p.data (fun c => c.isLower || c.isUpper)
    Char.isDigit
  have h3 := any_or_distrib p.data Char.isLower Char.isUpper
  have hfun : inMainClass = fun c =>
      (c.isLower || c.isUpper || c.isDigit) || specialChars.data.contains c :=
    funext fun c => by rw [inMainClass]
  rw [hfun, h1, h2, h3]

/-- If some main class is present the alphabet sum is at least 10. -/
lemma alpha_ge : ∀ a b c d e : Bool, (a || b || c || d) = true →
    10 ≤ ((if a then 26 else 0) + (if b then 26 else 0) +
      (if c then 10 else 0) + (if d then 20 else 0) +
      (if e then 1 else 0) : Nat) := by decide

/-- If no main class is present the alphabet sum is the whitespace bit. -/
lemma alpha_small : ∀ a b c d e : Bool, (a || b || c || d) = false →
    ((if a then 26 else 0) + (if b then 26 else 0) + (if c then 10 else 0) +
      (if d then 20 else 0) + (if e then 1 else 0) : Nat) =
      (if e then 1 else 0) := by decide

/-- Rounding lands on `n` when the value is within a half of `n`. -/
lemma round_eq_of_bounds (y : ℝ) (n : ℤ) (h1 : (n : ℝ) - 1/2 ≤ y)
    (h2 : y < (n : ℝ) + 1/2) : round y = n := by
  rw [round_eq]
  apply Int.floor_eq_iff.2
  constructor
  · linarith
  · linarith

/-- Lower-bound `logb 2 x` by a rational via an integer power inequality. -/
lemma logb2_ge (x : ℝ) (num den : ℕ) (hx : 0 < x) (hden : 0 < den)
    (h : (2 : ℝ) ^ num ≤ x ^ den) :
    ((num : ℝ) / (den : ℝ)) ≤ Real.logb 2 x := by
  rw [Real.le_logb_iff_rpow_le (by norm_num : (1:ℝ) < 2) hx]
  have hdne : ((den : ℕ) : ℝ) ≠ 0 := Nat.cast_ne_zero.2 (by omega)
  have key : ((2 : ℝ) ^ ((num : ℝ) / (den : ℝ))) ^ den = (2 : ℝ) ^ num := by
    rw [← Real.rpow_natCast ((2 : ℝ) ^ ((num : ℝ) / (den : ℝ))) den,
      ← Real.rpow_mul (by norm_num : (0:ℝ) ≤ 2), div_mul_cancel₀ _ hdne,
      Real.rpow_natCast]
  exact (pow_le_pow_iff_left₀
    (le_of_lt (Real.rpow_pos_of_pos (by norm_num) _)) (le_of_lt hx)
    (by omega : den ≠ 0)).1 (by rw [key]; exact h)

/-- Upper-bound `logb 2 x` by a rational via an integer power inequality. -/
lemma logb2_lt (x : ℝ) (num den : ℕ) (hx : 0 < x) (hden : 0 < den)
    (h : x ^ den < (2 : ℝ) ^ num) :
    Real.logb 2 x < ((num : ℝ) / (den : ℝ)) := by
  rw [Real.logb_lt_iff_lt_rpow (by norm_num : (1:ℝ) < 2) hx]
  have hdne : ((den : ℕ) : ℝ) ≠ 0 := Nat.cast_ne_zero.2 (by omega)
  have key : ((2 : ℝ) ^ ((num : ℝ) / (den : ℝ))) ^ den = (2 : ℝ) ^ num := by
    rw [← Real.rpow_natCast ((2 : ℝ) ^ ((num : ℝ) / (den : ℝ))) den,
      ← Real.rpow_mul (by norm_num : (0:ℝ) ≤ 2), div_mul_cancel₀ _ hdne,
      Real.rpow_natCast]
  exact (pow_lt_pow_iff_left₀ (le_of_lt hx)
    (le_of_lt (Real.rpow_pos_of_pos (by norm_num) _))
    (by omega : den ≠ 0)).1 (by rw [key]; exact h)

/-- `log2 20` lies in `[4.315, 4.325)`. -/
lemma logb2_20_bounds :
    (863 : ℝ) / 200 ≤ Real.logb 2 20 ∧ Real.logb 2 20 < (865 : ℝ) / 200 := by
  constructor
  · refine logb2_ge 20 863 200 (by norm_num) (by norm_num) ?_
    have h : (2 : ℕ) ^ 863 ≤ 20 ^ 200 := by norm_num
    exact_mod_cast h
  · refine logb2_lt 20 865 200 (by norm_num) (by norm_num) ?_
    have h : (20 : ℕ) ^ 200 < 2 ^ 865 := by norm_num
    exact_mod_cast h

/-- `log2 21` lies in `[4.385, 4.395)`. -/
lemma logb2_21_bounds :
    (877 : ℝ) / 200 ≤ Real.logb 2 21 ∧ Real.logb 2 21 < (879 : ℝ) / 200 := by
  constructor
  · refine logb2_ge 21 877 200 (by norm_num) (by norm_num) ?_
    have h : (2 : ℕ) ^ 877 ≤ 21 ^ 200 := by norm_num
    exact_mod_cast h
  · refine logb2_lt 21 879 200 (by norm_num) (by norm_num) ?_
    have h : (21 : ℕ) ^ 200 < 2 ^ 879 := by norm_num
    exact_mod_cast h

/-- C3, counterexample: at the one-character password `"!"` the source's
entropy (symbol class of size 20, giving 4.32) differs from the claim's
formula with a 21-character symbol class (giving 4.39). -/
theorem entropy_symbol_class_21_cx :
    calculate_entropy "!" ≠ specEntropy21 "!" := by
  have hr20 : round (100 * Real.logb 2 20) = 432 := by
    refine round_eq_of_bounds _ 432 ?_ ?_
    · have := logb2_20_bounds.1; norm_num; linarith
    · have := logb2_20_bounds.2; norm_num; linarith
  have hr21 : round (100 * Real.logb 2 21) = 439 := by
    refine round_eq_of_bounds _ 439 ?_ ?_
    · have := logb2_21_bounds.1; norm_num; linarith
    · have := logb2_21_bounds.2; norm_num; linarith
  have e1 : calculate_entropy "!" = ((432 : ℤ) : ℝ) / 100 := by
    unfold calculate_entropy pyRound2
    rw [show possible_characters "!" = 20 from by decide,
      show ("!" : String).length = 1 from rfl]
    norm_num [hr20]
  have e2 : specEntropy21 "!" = ((439 : ℤ) : ℝ) / 100 := by
    unfold specEntropy21 pyRound2
    rw [show specAlphabetSize21 "!" = 21 from by decide,
      show ("!" : String).length = 1 from rfl]
    norm_num [hr21]
  rw [e1, e2]
  norm_num

/-- C3, amended: `calculate_entropy` equals `log2(alphabetSize) × length`
rounded to 2 decimal places, where each present class contributes its full
size — lowercase 26, uppercase 26, digit 10, whitespace 1, and the fixed
symbol set its actual size of **20** (not 21) — and alphabet size 0 yields
entropy exactly 0. -/
theorem entropy_formula_symbol_class_20 :
    specialChars.length = 20 ∧
    ∀ p : String, calculate_entropy p = specEntropy20 p := by
  refine ⟨specialChars_length, fun p => ?_⟩
  unfold calculate_entropy specEntropy20
  rw [possible_characters_eq]

/-- C4, counterexample: the one-space password has entropy 0 although it is
non-empty and its character belongs to a recognized class (whitespace) —
the whitespace-only alphabet has size 1 and `log2 1 = 0`. -/
theorem entropy_zero_iff_cx :
    calculate_entropy " " = 0 ∧
    ¬ (" " = "" ∨ ∀ c ∈ (" " : String).data, inRecognizedClass c = false) := by
  constructor
  · unfold calculate_entropy pyRound2
    rw [show possible_characters " " = 1 from by decide]
    norm_num [Real.logb_one]
  · decide

/-- C4, amended: entropy is always nonnegative, and it is 0 exactly when
the password contains no character of the four non-whitespace classes
(lowercase, uppercase, digit, symbol set) — i.e. when it is empty, contains
only unrecognized characters, or contains at most whitespace besides them;
a whitespace-only password is a further zero-entropy case beyond the
claim's two. -/
theorem entropy_nonneg_and_zero_iff :
    ∀ p : String,
      0 ≤ calculate_entropy p ∧
      (calculate_entropy p = 0 ↔ p.data.any inMainClass = false) := by
  intro p
  cases hM : p.data.any inMainClass with
  | false =>
      have h4 : (p.data.any Char.isLower || p.data.any Char.isUpper ||
          p.data.any Char.isDigit ||
          p.data.any (fun c => specialChars.data.contains c)) = false :=
        (any_mainClass_eq p).symm.trans hM
      have hA : possible_characters p =
          (if p.data.any Char.isWhitespace then 1 else 0) := by
        rw [possible_characters_eq]
        exact alpha_small (p.data.any Char.isLower) (p.data.any Char.isUpper)
          (p.data.any Char.isDigit)
          (p.data.any (fun c => specialChars.data.contains c))
          (p.data.any Char.isWhitespace) h4
      have hzero : calculate_entropy p = 0 := by
        unfold calculate_entropy pyRound2
        cases hw : p.data.any Char.isWhitespace with
        | false =>
            rw [hw] at hA
            simp [hA]
        | true =>
            rw [hw] at hA
            simp only [if_true] at hA
            rw [hA]
            norm_num [Real.logb_one]
      exact ⟨le_of_eq hzero.symm, by rw [hzero]; simp⟩
  | true =>
      have h4 : (p.data.any Char.isLower || p.data.any Char.isUpper ||
          p.data.any Char.isDigit ||
          p.data.any (fun c => specialChars.data.contains c)) = true :=
        (any_mainClass_eq p).symm.trans hM
      have hA10 : 10 ≤ possible_characters p := by
        rw [possible_characters_eq]
        exact alpha_ge (p.data.any Char.isLower) (p.data.any Char.isUpper)
          (p.data.any Char.isDigit)
          (p.data.any (fun c => specialChars.data.contains c))
          (p.data.any Char.isWhitespace) h4
      have hlen : 1 ≤ p.length := by
        obtain ⟨c, hc, -⟩ := List.any_eq_true.1 hM
        have : p.data ≠ [] := by
          intro h0
          rw [h0] at hc
          exact absurd hc (List.not_mem_nil c)
        have := List.length_pos.2 this
        exact this
      have hApos : (0 : ℝ) < (possible_characters p : ℝ) := by
        exact_mod_cast lt_of_lt_of_le (by norm_num) hA10
      have hlogb : (3 : ℝ) ≤ Real.logb 2 (possible_characters p) := by
        rw [Real.le_logb_iff_rpow_le (by norm_num : (1:ℝ) < 2) hApos]
        have h8 : ((2 : ℝ) ^ ((3 : ℕ) : ℝ)) = 8 := by
          rw [Real.rpow_natCast]
          norm_num
        have h10 : (8 : ℝ) ≤ (possible_characters p : ℝ) := by
          exact_mod_cast le_trans (by norm_num) hA10
        calc (2 : ℝ) ^ (3 : ℝ) = (2 : ℝ) ^ ((3 : ℕ) : ℝ) := by norm_num
          _ = 8 := h8
          _ ≤ _ := h10
      have hlen1 : (1 : ℝ) ≤ (p.length : ℝ) := by exact_mod_cast hlen
      have hx3 : (3 : ℝ) ≤ Real.logb 2 (possible_characters p) * p.length := by
        calc (3 : ℝ) = 3 * 1 := by ring
          _ ≤ Real.logb 2 (possible_characters p) * p.length :=
            mul_le_mul hlogb hlen1 (by norm_num) (le_trans (by norm_num) hlogb)
      have hround : (300 : ℤ) ≤
          round (100 * (Real.logb 2 (possible_characters p) * p.length)) := by
        have h300 : round (((300 : ℤ) : ℝ)) = 300 := round_intCast 300
        calc (300 : ℤ) = round (((300 : ℤ) : ℝ)) := h300.symm
          _ ≤ round (100 * (Real.logb 2 (possible_characters p) * p.length)) := by
            rw [round_eq, round_eq]
            apply Int.floor_mono
            push_cast
            linarith
      have hent3 : (3 : ℝ) ≤ calculate_entropy p := by
        unfold calculate_entropy pyRound2
        rw [if_neg (by omega : ¬ possible_characters p = 0)]
        have hc : ((300 : ℤ) : ℝ) ≤
            ((round (100 * (Real.logb 2 (possible_characters p) * p.length)) : ℤ) : ℝ) := by
          exact_mod_cast hround
        rw [le_div_iff₀ (by norm_num : (0:ℝ) < 100)]
        push_cast at hc ⊢
        linarith
      refine ⟨le_trans (by norm_num) hent3, ?_, ?_⟩
      · intro h0
        rw [h0] at hent3
        norm_num at hent3
      · intro hff
        exact absurd hff (by simp)

/-- Witness for `entropy_nonneg_and_zero_iff` at a concrete password. -/
theorem entropy_nonneg_and_zero_iff_witness :
    0 ≤ calculate_entropy "ab" ∧
    (calculate_entropy "ab" = 0 ↔
      ("ab" : String).data.any inMainClass = false) :=
  entropy_nonneg_and_zero_iff "ab"
